import Mathlib

/-!
Shallow embedding of the quote-orchestration and cycle-arbitrage engine of
`bot.py` (class `ArbDetector`), for checking the repository's specification.

Modelling conventions:
* `time.time()` is an explicit `now : Int` parameter.
* The upstream HTTP world is an oracle `resp : Nat → UpstreamResp` giving the
  outcome of each network attempt of one `get_jupiter_quote` call.
* The mutable `self.invalid_tokens` dictionary is threaded explicitly as an
  association list (`InvalidMap`); assignment prepends, lookup takes the
  newest entry, matching dict-overwrite semantics.
* Every network attempt is recorded in a `requests` trace and every
  `asyncio.sleep` backoff in a `sleeps` trace, so that retry counts, backoff
  schedules and request parameters (in particular the `amount` sent) are
  observable in theorems.
* Python floats are modelled as `ℚ`; Python `or`/truthiness on optional float
  values (`if not raydium_price or not orca_price`) is modelled by `pyTruthy`.
* Exceptions raised inside `detect_arb`'s `try` block (`ZeroDivisionError`
  from `((final_usdc - amount) / amount)` when `amount = 0`, and
  `int(quote['outAmount'])` failing) are modelled by an `Except` layer
  (`detectArbRaw`); the surrounding `except Exception` handler that converts
  them to `None` is the wrapper `detectArb`.
-/

/-- `USDC_ADDRESS` constant of bot.py (line 37). -/
def USDC_ADDRESS : String := "EPjFWdd5AufqSSqeM2qN1xzybapC8G4wEGGkZwyTDt1v"

/-- `INVALID_TOKEN_TTL = 600` of bot.py (line 32). -/
def INVALID_TOKEN_TTL : Int := 600

/-- `MAX_CONCURRENT_REQUESTS = 1` of bot.py (line 33). -/
def MAX_CONCURRENT_REQUESTS : Nat := 1

/-- Default `retries=5` of `get_jupiter_quote` (bot.py line 161). -/
def JUP_RETRIES : Nat := 5

/-- Backoff delay `4 * (2 ** attempt)` seconds (bot.py lines 192, 207, 215). -/
def backoff (attempt : Nat) : Nat := 4 * 2 ^ attempt

/-- A directed pair key `(input_mint, output_mint)` (bot.py line 165). -/
abbrev PairKey := String × String

/-- The `self.invalid_tokens` dictionary `{pair: timestamp}` (bot.py line 60),
modelled as an association list where the newest binding shadows older ones. -/
abbrev InvalidMap := List (PairKey × Int)

/-- Dictionary lookup: first (newest) binding for the key wins. -/
def lookupPair : InvalidMap → PairKey → Option Int
  | [], _ => none
  | (q, t) :: rest, p => if q = p then some t else lookupPair rest p

/-- `self.invalid_tokens[pair] = time.time()` (bot.py line 198). -/
def markFailed (st : InvalidMap) (p : PairKey) (t : Int) : InvalidMap :=
  (p, t) :: st

/-- The suppression test of bot.py line 166:
`pair in self.invalid_tokens and time.time() - self.invalid_tokens[pair] < INVALID_TOKEN_TTL`. -/
def isSuppressed (st : InvalidMap) (p : PairKey) (now : Int) : Bool :=
  match lookupPair st p with
  | some t0 => decide (now - t0 < INVALID_TOKEN_TTL)
  | none => false

/-- The parsed JSON body of a successful (HTTP 200, decodable) Jupiter quote
response. `outAmountInt = some n` means `int(data['outAmount'])` evaluates to
`n`; `none` means the key is missing or its value is not parseable as an int
(so `int(...)` raises in `detect_arb`). -/
structure JupData where
  outAmountInt : Option Int
  deriving DecidableEq

/-- Outcome of one network attempt of `get_jupiter_quote` (bot.py 175-216). -/
inductive UpstreamResp where
  /-- HTTP 200 with nonempty, JSON-decodable body. -/
  | ok (data : JupData)
  /-- HTTP 200 with empty body (bot.py line 181). -/
  | emptyBody
  /-- HTTP 200 whose body fails `json.loads` (bot.py line 188). -/
  | badJson
  /-- HTTP 429 rate limit (bot.py line 191). -/
  | status429
  /-- HTTP 400 bad request / unroutable pair (bot.py line 195). -/
  | status400
  /-- Any other HTTP status, e.g. 500 (bot.py line 201). -/
  | statusOther (code : Nat)
  /-- `asyncio.TimeoutError` (bot.py line 204). -/
  | timeout
  /-- Any other exception (bot.py line 212). -/
  | exc
  deriving DecidableEq

/-- One upstream HTTP request issued by `get_jupiter_quote`, with the request
parameters of bot.py lines 169-174. -/
structure JupRequest where
  inputMint : String
  outputMint : String
  amount : Int
  deriving DecidableEq

/-- Result of the retry loop of `get_jupiter_quote`: the returned value, the
updated `invalid_tokens` state, the number of network attempts issued, and the
list of backoff sleeps performed (in seconds). -/
structure LoopOut where
  result : Option JupData
  st : InvalidMap
  attempts : Nat
  sleeps : List Nat
  deriving DecidableEq

/-- The `for attempt in range(retries)` loop of `get_jupiter_quote`
(bot.py lines 175-218). `fuel` is the number of remaining iterations
(including the current one); `attempt` is the Python loop index. The guard
`attempt < retries - 1` of lines 206 and 214 is equivalent to `fuel ≠ 1`,
i.e. in the `fuel + 1` body, to `fuel ≠ 0`. -/
def jupLoop (now : Int) (p : PairKey) (resp : Nat → UpstreamResp) :
    Nat → Nat → InvalidMap → LoopOut
  | _, 0, st => ⟨none, st, 0, []⟩
  | attempt, fuel + 1, st =>
    match resp attempt with
    | .ok d => ⟨some d, st, 1, []⟩
    | .emptyBody => ⟨none, st, 1, []⟩
    | .badJson => ⟨none, st, 1, []⟩
    | .status429 =>
      let rest := jupLoop now p resp (attempt + 1) fuel st
      ⟨rest.result, rest.st, rest.attempts + 1, backoff attempt :: rest.sleeps⟩
    | .status400 => ⟨none, markFailed st p now, 1, []⟩
    | .statusOther _ => ⟨none, st, 1, []⟩
    | .timeout =>
      if fuel = 0 then ⟨none, st, 1, []⟩
      else
        let rest := jupLoop now p resp (attempt + 1) fuel st
        ⟨rest.result, rest.st, rest.attempts + 1, backoff attempt :: rest.sleeps⟩
    | .exc => ⟨none, st, 1, if fuel = 0 then [] else [backoff attempt]⟩

/-- Observable outcome of one `get_jupiter_quote` call. -/
structure QuoteOutcome where
  result : Option JupData
  st : InvalidMap
  requests : List JupRequest
  sleeps : List Nat
  deriving DecidableEq

/-- `ArbDetector.get_jupiter_quote` (bot.py lines 161-218): self-pair check,
negative-cache suppression check, then the retry loop. Every network attempt
issues the same request parameters, hence `List.replicate`. -/
def getJupiterQuote (st : InvalidMap) (now : Int) (inputMint outputMint : String)
    (amount : Int) (resp : Nat → UpstreamResp) (retries : Nat := JUP_RETRIES) :
    QuoteOutcome :=
  if inputMint = outputMint then ⟨none, st, [], []⟩
  else if isSuppressed st (inputMint, outputMint) now then ⟨none, st, [], []⟩
  else
    let r := jupLoop now (inputMint, outputMint) resp 0 retries st
    ⟨r.result, r.st, List.replicate r.attempts ⟨inputMint, outputMint, amount⟩, r.sleeps⟩

example :
    getJupiterQuote [] 0 "A" "B" 100 (fun _ => .ok ⟨some 7⟩) =
      ⟨some ⟨some 7⟩, [], [⟨"A", "B", 100⟩], []⟩ := by decide

example :
    getJupiterQuote [] 0 "A" "B" 100 (fun _ => .timeout) =
      ⟨none, [], List.replicate 5 ⟨"A", "B", 100⟩, [4, 8, 16, 32]⟩ := by decide

example :
    getJupiterQuote [] 0 "A" "B" 100 (fun _ => .status429) =
      ⟨none, [], List.replicate 5 ⟨"A", "B", 100⟩, [4, 8, 16, 32, 64]⟩ := by decide

example :
    getJupiterQuote [] 7 "A" "B" 100 (fun _ => .status400) =
      ⟨none, [(("A", "B"), 7)], [⟨"A", "B", 100⟩], []⟩ := by decide

example :
    getJupiterQuote [(("A", "B"), 0)] 599 "A" "B" 100 (fun _ => .ok ⟨some 7⟩) =
      ⟨none, [(("A", "B"), 0)], [], []⟩ := by decide

example :
    getJupiterQuote [(("A", "B"), 0)] 600 "A" "B" 100 (fun _ => .ok ⟨some 7⟩) =
      ⟨some ⟨some 7⟩, [(("A", "B"), 0)], [⟨"A", "B", 100⟩], []⟩ := by decide

/-- `None`-or-zero falsiness of a Python optional float, as used by
`if not raydium_price or not orca_price` (bot.py line 275) and
`if buy_price and cg_price` (bot.py line 306). -/
def pyTruthy : Option ℚ → Bool
  | none => false
  | some p => decide (p ≠ 0)

/-- Exceptions that can arise inside `detect_arb`'s `try` block from the
evaluation logic itself (not from the HTTP layer, which is handled inside
`get_jupiter_quote`): division by a zero `amount` at bot.py line 288/303, and
`int(quote['outAmount'])` failing at line 297/302. -/
inductive ArbErr where
  | zeroDivision
  | badOutAmount
  deriving DecidableEq

/-- The opportunity record built at bot.py lines 309-320. -/
structure Opportunity where
  symbol : String
  profit_pct : ℚ
  buy_dex : String
  sell_dex : String
  buy_price : ℚ
  sell_price : ℚ
  quote1 : JupData
  quote2 : JupData
  jup_profit_pct : ℚ
  price_diff_pct : ℚ
  cg_price : Option ℚ
  deriving DecidableEq

/-- Oracle for the external world one `detect_arb` call observes: the Raydium
and Orca pool prices (bot.py lines 273-274), the per-attempt outcomes of the
two Jupiter quote calls (lines 293 and 298), and the CoinGecko price
(line 305). -/
structure ArbEnv where
  raydiumPrice : Option ℚ
  orcaPrice : Option ℚ
  leg1 : Nat → UpstreamResp
  leg2 : Nat → UpstreamResp
  cgPrice : Option ℚ

/-- Intermediate outcome of the `try` block body of `detect_arb`: the value
returned (or the exception raised), plus the state and traces accumulated up
to that point. -/
structure RawOut where
  res : Except ArbErr (Option Opportunity)
  st : InvalidMap
  requests : List JupRequest
  sleeps : List Nat

/-- The pool-price profit computation of bot.py lines 282-288, as a function
of the two pool prices and the notional amount. -/
@[reducible] def poolProfitPct (rp op : ℚ) (amount : Int) : ℚ :=
  let buy_price := min rp op
  let sell_price := max rp op
  let token_out : ℚ := if buy_price ≠ 0 then (amount : ℚ) / buy_price else 0
  let final_usdc : ℚ := if sell_price ≠ 0 then token_out * sell_price else 0
  ((final_usdc - (amount : ℚ)) / (amount : ℚ)) * 100

/-- The body of `detect_arb`'s `try` block (bot.py lines 271-324), with
exceptions surfaced in the `Except` layer. The two `get_jupiter_quote` calls
use the Python default `retries=5` (`JUP_RETRIES`), as at lines 293 and 298. -/
def detectArbRaw (env : ArbEnv) (st0 : InvalidMap) (now : Int)
    (symbol address : String) (amount : Int) (minProfitPct : ℚ) : RawOut :=
  if !(pyTruthy env.raydiumPrice) || !(pyTruthy env.orcaPrice) then
    ⟨.ok none, st0, [], []⟩
  else
    let rp := env.raydiumPrice.getD 0
    let op := env.orcaPrice.getD 0
    let buy_dex := if rp < op then "Raydium" else "Orca"
    let sell_dex := if buy_dex = "Raydium" then "Orca" else "Raydium"
    let buy_price := min rp op
    let sell_price := max rp op
    let token_out : ℚ := if buy_price ≠ 0 then (amount : ℚ) / buy_price else 0
    let final_usdc : ℚ := if sell_price ≠ 0 then token_out * sell_price else 0
    if amount = 0 then ⟨.error .zeroDivision, st0, [], []⟩
    else
      let profit_pct := ((final_usdc - (amount : ℚ)) / (amount : ℚ)) * 100
      if minProfitPct ≤ profit_pct then
        let o1 := getJupiterQuote st0 now USDC_ADDRESS address amount env.leg1
        match o1.result with
        | none => ⟨.ok none, o1.st, o1.requests, o1.sleeps⟩
        | some q1 =>
          match q1.outAmountInt with
          | none => ⟨.error .badOutAmount, o1.st, o1.requests, o1.sleeps⟩
          | some token_out_jup =>
            let o2 := getJupiterQuote o1.st now address USDC_ADDRESS token_out_jup env.leg2
            match o2.result with
            | none => ⟨.ok none, o2.st, o1.requests ++ o2.requests, o1.sleeps ++ o2.sleeps⟩
            | some q2 =>
              match q2.outAmountInt with
              | none =>
                ⟨.error .badOutAmount, o2.st, o1.requests ++ o2.requests, o1.sleeps ++ o2.sleeps⟩
              | some jup_final_usdc =>
                let jup_profit_pct :=
                  (((jup_final_usdc : ℚ) - (amount : ℚ)) / (amount : ℚ)) * 100
                let cg := env.cgPrice
                let pd0 : ℚ :=
                  if buy_price ≠ 0 ∧ pyTruthy cg = true then
                    |cg.getD 0 - buy_price| / buy_price * 100
                  else 0
                let price_diff_pct := if 100 < pd0 then 0 else pd0
                ⟨.ok (some ⟨symbol, profit_pct, buy_dex, sell_dex, buy_price, sell_price,
                    q1, q2, jup_profit_pct, price_diff_pct, cg⟩),
                  o2.st, o1.requests ++ o2.requests, o1.sleeps ++ o2.sleeps⟩
      else ⟨.ok none, st0, [], []⟩

/-- Observable outcome of one `detect_arb` call. -/
structure DetectOut where
  result : Option Opportunity
  st : InvalidMap
  requests : List JupRequest
  sleeps : List Nat
  deriving DecidableEq

/-- `ArbDetector.detect_arb` (bot.py lines 266-327): the USDC self-check of
lines 267-269, then the `try` body, with the `except Exception` handler of
lines 325-327 converting any raised exception into `None` (state changes made
before the raise are kept, since `self.invalid_tokens` is object state). -/
def detectArb (env : ArbEnv) (st0 : InvalidMap) (now : Int)
    (symbol address : String) (amount : Int) (minProfitPct : ℚ) : DetectOut :=
  if address = USDC_ADDRESS then ⟨none, st0, [], []⟩
  else
    let r := detectArbRaw env st0 now symbol address amount minProfitPct
    ⟨match r.res with
      | .ok o => o
      | .error _ => none,
      r.st, r.requests, r.sleeps⟩

/-- If the current attempt's upstream outcome is a parseable HTTP 200, the
retry loop returns that payload after this single attempt. -/
lemma jupLoop_ok (now : Int) (p : PairKey) (resp : Nat → UpstreamResp) (a f : Nat)
    (st : InvalidMap) (d : JupData) (h : resp a = .ok d) (hf : f ≠ 0) :
    jupLoop now p resp a f st = ⟨some d, st, 1, []⟩ := by
  cases f with
  | zero => exact absurd rfl hf
  | succ n => simp [jupLoop, h]

/-- A fully successful environment: pool prices 1 and 6/5 (pool profit 20%),
Jupiter leg quotes 105 then 108, no CoinGecko price. -/
def envOk : ArbEnv :=
  ⟨some 1, some (6 / 5), fun _ => .ok ⟨some 105⟩, fun _ => .ok ⟨some 108⟩, none⟩

/-- The opportunity `detect_arb` produces from `envOk` with symbol "TOK",
address "TOKADDR", amount 100, threshold 6. -/
def oppOk : Opportunity :=
  ⟨"TOK", 20, "Raydium", "Orca", 1, 6 / 5, ⟨some 105⟩, ⟨some 108⟩, 8, 0, none⟩

example :
    detectArb envOk [] 0 "TOK" "TOKADDR" 100 6 =
      ⟨some oppOk, [],
        [⟨USDC_ADDRESS, "TOKADDR", 100⟩, ⟨"TOKADDR", USDC_ADDRESS, 105⟩], []⟩ := by
  simp +decide [detectArb, detectArbRaw, getJupiterQuote, jupLoop_ok, isSuppressed,
    lookupPair, pyTruthy, envOk, oppOk, JUP_RETRIES, USDC_ADDRESS, min_def, max_def]
  norm_num

example : detectArb envOk [] 0 "TOK" "TOKADDR" 100 21 = ⟨none, [], [], []⟩ := by
  simp +decide [detectArb, detectArbRaw, getJupiterQuote, jupLoop_ok, isSuppressed,
    lookupPair, pyTruthy, envOk, JUP_RETRIES, USDC_ADDRESS, min_def, max_def]
  norm_num

example : detectArb envOk [] 0 "TOK" USDC_ADDRESS 100 6 = ⟨none, [], [], []⟩ := by
  simp [detectArb]

/-- The value, attempt count and backoff schedule of the retry loop do not
depend on the `invalid_tokens` state it starts from (the loop only writes the
state, on HTTP 400). -/
lemma jupLoop_indep (now : Int) (p : PairKey) (resp : Nat → UpstreamResp) :
    ∀ (f a : Nat) (st st' : InvalidMap),
      (jupLoop now p resp a f st).result = (jupLoop now p resp a f st').result ∧
        (jupLoop now p resp a f st).attempts = (jupLoop now p resp a f st').attempts ∧
        (jupLoop now p resp a f st).sleeps = (jupLoop now p resp a f st').sleeps := by
  intro f
  induction f with
  | zero => intro a st st'; simp [jupLoop]
  | succ n ih =>
    intro a st st'
    cases h : resp a with
    | ok d => simp [jupLoop, h]
    | emptyBody => simp [jupLoop, h]
    | badJson => simp [jupLoop, h]
    | status429 =>
      have hi := ih (a + 1) st st'
      simp [jupLoop, h, hi.1, hi.2.1, hi.2.2]
    | status400 => simp [jupLoop, h]
    | statusOther c => simp [jupLoop, h]
    | timeout =>
      by_cases hn : n = 0
      · simp [jupLoop, h, hn]
      · have hi := ih (a + 1) st st'
        simp [jupLoop, h, hn, hi.1, hi.2.1, hi.2.2]
    | exc => simp [jupLoop, h]

/-- The retry loop issues at least one network attempt whenever it is entered
with a positive iteration budget. -/
lemma jupLoop_attempts_pos (now : Int) (p : PairKey) (resp : Nat → UpstreamResp)
    (f a : Nat) (st : InvalidMap) (hf : f ≠ 0) :
    (jupLoop now p resp a f st).attempts ≠ 0 := by
  cases f with
  | zero => exact absurd rfl hf
  | succ n =>
    cases h : resp a with
    | ok d => simp [jupLoop, h]
    | emptyBody => simp [jupLoop, h]
    | badJson => simp [jupLoop, h]
    | status429 => simp [jupLoop, h]
    | status400 => simp [jupLoop, h]
    | statusOther c => simp [jupLoop, h]
    | timeout =>
      by_cases hn : n = 0 <;> simp [jupLoop, h, hn]
    | exc => simp [jupLoop, h]

/-- When the pair is neither a self-pair nor negative-cache suppressed,
`get_jupiter_quote` is exactly its retry loop. -/
lemma getJupiterQuote_run (st : InvalidMap) (now : Int) (inp out : String) (amt : Int)
    (resp : Nat → UpstreamResp) (r : Nat)
    (h1 : inp ≠ out) (h2 : isSuppressed st (inp, out) now = false) :
    getJupiterQuote st now inp out amt resp r =
      ⟨(jupLoop now (inp, out) resp 0 r st).result, (jupLoop now (inp, out) resp 0 r st).st,
        List.replicate (jupLoop now (inp, out) resp 0 r st).attempts ⟨inp, out, amt⟩,
        (jupLoop now (inp, out) resp 0 r st).sleeps⟩ := by
  simp [getJupiterQuote, h1, h2]

/-- A negative-cache-suppressed (or self-pair) call is skipped: value `None`,
state unchanged, no network attempt, no sleep. -/
lemma getJupiterQuote_suppressed (st : InvalidMap) (now : Int) (inp out : String)
    (amt : Int) (resp : Nat → UpstreamResp) (r : Nat)
    (h : isSuppressed st (inp, out) now = true) :
    getJupiterQuote st now inp out amt resp r = ⟨none, st, [], []⟩ := by
  by_cases hio : inp = out <;> simp [getJupiterQuote, hio, h]

/-- C2: a directed pair marked failed at `t0` is suppressed (skipped with no
network attempt and no state change) at any time `t` with `t - t0 < TTL`
(600 s), and at any `t` with `t - t0 ≥ TTL` the suppression is lifted lazily
at read time: the call behaves (value, network attempts, sleeps) exactly like
a call with no cache entry for the pair. -/
theorem negative_cache_ttl_semantics :
    (∀ (st : InvalidMap) (p : PairKey) (t0 t : Int),
      isSuppressed (markFailed st p t0) p t = decide (t - t0 < INVALID_TOKEN_TTL)) ∧
    (∀ (st : InvalidMap) (inp out : String) (t0 t amt : Int)
        (resp : Nat → UpstreamResp) (r : Nat),
      lookupPair st (inp, out) = some t0 → t - t0 < INVALID_TOKEN_TTL →
      getJupiterQuote st t inp out amt resp r = ⟨none, st, [], []⟩) ∧
    (∀ (st : InvalidMap) (inp out : String) (t0 t amt : Int)
        (resp : Nat → UpstreamResp) (r : Nat),
      lookupPair st (inp, out) = some t0 → INVALID_TOKEN_TTL ≤ t - t0 → inp ≠ out →
      (getJupiterQuote st t inp out amt resp r).result =
          (getJupiterQuote [] t inp out amt resp r).result ∧
        (getJupiterQuote st t inp out amt resp r).requests =
          (getJupiterQuote [] t inp out amt resp r).requests ∧
        (getJupiterQuote st t inp out amt resp r).sleeps =
          (getJupiterQuote [] t inp out amt resp r).sleeps) := by
  refine ⟨?_, ?_, ?_⟩
  · intro st p t0 t
    simp [isSuppressed, markFailed, lookupPair]
  · intro st inp out t0 t amt resp r hl ht
    have hs : isSuppressed st (inp, out) t = true := by
      simp [isSuppressed, hl, ht]
    exact getJupiterQuote_suppressed st t inp out amt resp r hs
  · intro st inp out t0 t amt resp r hl ht hio
    have hs : isSuppressed st (inp, out) t = false := by
      simp [isSuppressed, hl]
      omega
    have hs0' : isSuppressed ([] : InvalidMap) (inp, out) t = false := by
      simp [isSuppressed, lookupPair]
    rw [getJupiterQuote_run st t inp out amt resp r hio hs,
      getJupiterQuote_run [] t inp out amt resp r hio hs0']
    have hi := jupLoop_indep t (inp, out) resp r 0 st []
    simp [hi.1, hi.2.1, hi.2.2]

theorem negative_cache_ttl_semantics_witness :
    (lookupPair [(("A", "B"), 100)] ("A", "B") = some 100 ∧
      (699 : Int) - 100 < INVALID_TOKEN_TTL ∧
      getJupiterQuote [(("A", "B"), 100)] 699 "A" "B" 5 (fun _ => .ok ⟨some 7⟩) JUP_RETRIES =
        ⟨none, [(("A", "B"), 100)], [], []⟩) ∧
    (INVALID_TOKEN_TTL ≤ (700 : Int) - 100 ∧
      (getJupiterQuote [(("A", "B"), 100)] 700 "A" "B" 5 (fun _ => .ok ⟨some 7⟩)
          JUP_RETRIES).result =
        (getJupiterQuote [] 700 "A" "B" 5 (fun _ => .ok ⟨some 7⟩) JUP_RETRIES).result) :=
  ⟨⟨by decide, by decide,
    negative_cache_ttl_semantics.2.1 [(("A", "B"), 100)] "A" "B" 100 699 5 _ JUP_RETRIES
      (by decide) (by decide)⟩,
   ⟨by decide,
    (negative_cache_ttl_semantics.2.2 [(("A", "B"), 100)] "A" "B" 100 700 5 _ JUP_RETRIES
      (by decide) (by decide) (by decide)).1⟩⟩

/-- C4 counterexample: a 5xx status (here 500) is NOT retried — the very first
attempt surfaces `None` after a single network request and no backoff sleep,
although the retry bound is 5. -/
theorem http_5xx_not_retried_counterexample :
    getJupiterQuote [] 0 "MintA" "MintB" 100 (fun _ => .statusOther 500) JUP_RETRIES =
        ⟨none, [], [⟨"MintA", "MintB", 100⟩], []⟩ ∧
      (getJupiterQuote [] 0 "MintA" "MintB" 100 (fun _ => .statusOther 500)
          JUP_RETRIES).requests.length = 1 ∧
      1 < JUP_RETRIES := by
  refine ⟨by decide, by decide, by decide⟩

/-- C4 (amended): only timeouts and HTTP 429 rate-limit responses are retried,
with exponential backoff `4 × 2^attempt` seconds, up to 5 total attempts,
after which the failure surfaces as `None`; any other non-200 HTTP status
(including 5xx) surfaces `None` immediately after a single attempt with no
retry. -/
theorem retry_policy_timeout_and_rate_limit (st : InvalidMap) (now : Int)
    (inp out : String) (amt : Int)
    (h1 : inp ≠ out) (h2 : isSuppressed st (inp, out) now = false) :
    getJupiterQuote st now inp out amt (fun _ => .timeout) JUP_RETRIES =
        ⟨none, st, List.replicate 5 ⟨inp, out, amt⟩, [4, 8, 16, 32]⟩ ∧
      getJupiterQuote st now inp out amt (fun _ => .status429) JUP_RETRIES =
        ⟨none, st, List.replicate 5 ⟨inp, out, amt⟩, [4, 8, 16, 32, 64]⟩ ∧
      (∀ (resp : Nat → UpstreamResp) (c : Nat), resp 0 = .statusOther c →
        getJupiterQuote st now inp out amt resp JUP_RETRIES =
          ⟨none, st, [⟨inp, out, amt⟩], []⟩) := by
  refine ⟨?_, ?_, ?_⟩
  · rw [getJupiterQuote_run st now inp out amt _ JUP_RETRIES h1 h2]
    rfl
  · rw [getJupiterQuote_run st now inp out amt _ JUP_RETRIES h1 h2]
    rfl
  · intro resp c h3
    rw [getJupiterQuote_run st now inp out amt resp JUP_RETRIES h1 h2,
      show JUP_RETRIES = 4 + 1 from rfl]
    simp [jupLoop, h3]

theorem retry_policy_timeout_and_rate_limit_witness :
    ("MintA" ≠ "MintB") ∧
      isSuppressed [] ("MintA", "MintB") 0 = false ∧
      getJupiterQuote [] 0 "MintA" "MintB" 100 (fun _ => .timeout) JUP_RETRIES =
        ⟨none, [], List.replicate 5 ⟨"MintA", "MintB", 100⟩, [4, 8, 16, 32]⟩ :=
  ⟨by decide, by decide,
    (retry_policy_timeout_and_rate_limit [] 0 "MintA" "MintB" 100 (by decide) (by decide)).1⟩

/-- C5: an HTTP 400 response writes a negative-cache entry for the directed
pair timestamped with the current time, and the call returns `None` after
that single attempt, with no retry and no backoff sleep. -/
theorem bad_request_marks_negative_cache (st : InvalidMap) (now : Int)
    (inp out : String) (amt : Int) (resp : Nat → UpstreamResp)
    (h1 : inp ≠ out) (h2 : isSuppressed st (inp, out) now = false)
    (h3 : resp 0 = .status400) :
    getJupiterQuote st now inp out amt resp JUP_RETRIES =
      ⟨none, markFailed st (inp, out) now, [⟨inp, out, amt⟩], []⟩ := by
  rw [getJupiterQuote_run st now inp out amt resp JUP_RETRIES h1 h2,
    show JUP_RETRIES = 4 + 1 from rfl]
  simp [jupLoop, h3]

theorem bad_request_marks_negative_cache_witness :
    ("MintA" ≠ "MintB") ∧
      isSuppressed [] ("MintA", "MintB") 7 = false ∧
      getJupiterQuote [] 7 "MintA" "MintB" 100 (fun _ => .status400) JUP_RETRIES =
        ⟨none, markFailed [] ("MintA", "MintB") 7, [⟨"MintA", "MintB", 100⟩], []⟩ :=
  ⟨by decide, by decide,
    bad_request_marks_negative_cache [] 7 "MintA" "MintB" 100 _ (by decide) (by decide) rfl⟩

/-- The oracle of a permanently failing upstream (HTTP 500 on every attempt). -/
def failResp : Nat → UpstreamResp := fun _ => .statusOther 500

/-- One `get_jupiter_quote` call against the failing upstream. -/
def failCall (st : InvalidMap) : QuoteOutcome :=
  getJupiterQuote st 0 "MintA" "MintB" 100 failResp JUP_RETRIES

/-- The `invalid_tokens` state after `n` consecutive calls against the failing
upstream. -/
def failState : Nat → InvalidMap
  | 0 => []
  | n + 1 => (failCall (failState n)).st

/-- C6 counterexample: after 5 consecutive failed calls (each returning
`None`), the 6th call still issues a network request — no circuit breaker
ever opens and no call is short-circuited. -/
theorem no_circuit_breaker_counterexample :
    ((failCall (failState 0)).result = none ∧ (failCall (failState 1)).result = none ∧
        (failCall (failState 2)).result = none ∧ (failCall (failState 3)).result = none ∧
        (failCall (failState 4)).result = none) ∧
      (failCall (failState 5)).requests = [⟨"MintA", "MintB", 100⟩] := by
  decide

/-- C6 (amended): the client keeps no cross-call consecutive-failure counter
and has no circuit breaker: every call that is not a self-pair and not
negative-cache suppressed attempts network I/O (issues at least one upstream
request), whatever the history of previous failures recorded in the state. -/
theorem no_breaker_every_call_attempts_network (st : InvalidMap) (now : Int)
    (inp out : String) (amt : Int) (resp : Nat → UpstreamResp)
    (h1 : inp ≠ out) (h2 : isSuppressed st (inp, out) now = false) :
    (getJupiterQuote st now inp out amt resp JUP_RETRIES).requests ≠ [] := by
  rw [getJupiterQuote_run st now inp out amt resp JUP_RETRIES h1 h2]
  have := jupLoop_attempts_pos now (inp, out) resp JUP_RETRIES 0 st (by decide)
  simp [List.replicate_eq_nil_iff, this]

theorem no_breaker_every_call_attempts_network_witness :
    ("MintA" ≠ "MintB") ∧
      isSuppressed (failState 5) ("MintA", "MintB") 0 = false ∧
      (getJupiterQuote (failState 5) 0 "MintA" "MintB" 100 failResp JUP_RETRIES).requests ≠ [] :=
  ⟨by decide, by decide,
    no_breaker_every_call_attempts_network (failState 5) 0 "MintA" "MintB" 100 failResp
      (by decide) (by decide)⟩

/-- C7 counterexample: an HTTP 200 response with an empty body is NOT retried:
the call surfaces `None` after that single attempt even though every later
attempt would have succeeded. -/
theorem malformed_not_retried_counterexample :
    getJupiterQuote [] 0 "MintA" "MintB" 100
        (fun i => if i = 0 then .emptyBody else .ok ⟨some 5⟩) JUP_RETRIES =
      ⟨none, [], [⟨"MintA", "MintB", 100⟩], []⟩ := by
  decide

/-- C7 (amended): a malformed response (HTTP 200 with an empty body, or an
HTTP 200 body that fails JSON decoding) surfaces `None` immediately — a
single attempt, no retry, no backoff — and writes no negative-cache entry
(the state is returned unchanged). -/
theorem malformed_fails_immediately_no_cache_write (st : InvalidMap) (now : Int)
    (inp out : String) (amt : Int) (resp : Nat → UpstreamResp)
    (h1 : inp ≠ out) (h2 : isSuppressed st (inp, out) now = false)
    (h3 : resp 0 = .emptyBody ∨ resp 0 = .badJson) :
    getJupiterQuote st now inp out amt resp JUP_RETRIES =
      ⟨none, st, [⟨inp, out, amt⟩], []⟩ := by
  rw [getJupiterQuote_run st now inp out amt resp JUP_RETRIES h1 h2,
    show JUP_RETRIES = 4 + 1 from rfl]
  rcases h3 with h3 | h3 <;> simp [jupLoop, h3]

theorem malformed_fails_immediately_no_cache_write_witness :
    ("MintA" ≠ "MintB") ∧
      isSuppressed [] ("MintA", "MintB") 0 = false ∧
      getJupiterQuote [] 0 "MintA" "MintB" 100 (fun _ => .badJson) JUP_RETRIES =
        ⟨none, [], [⟨"MintA", "MintB", 100⟩], []⟩ :=
  ⟨by decide, by decide,
    malformed_fails_immediately_no_cache_write [] 0 "MintA" "MintB" 100 _
      (by decide) (by decide) (Or.inr rfl)⟩

/-- Inversion for a successful `try` body: if `detect_arb`'s body produces an
opportunity, every guard passed, the acceptance decision was taken on the
pool-price profit, both Jupiter leg fetches returned the quotes stored in the
opportunity, and the Jupiter round-trip profit follows the
`(final - notional) / notional * 100` formula. -/
lemma detectArbRaw_some_inv {env : ArbEnv} {st0 : InvalidMap} {now : Int}
    {sym addr : String} {amt : Int} {minP : ℚ} {opp : Opportunity}
    (h : (detectArbRaw env st0 now sym addr amt minP).res = .ok (some opp)) :
    pyTruthy env.raydiumPrice = true ∧ pyTruthy env.orcaPrice = true ∧
      amt ≠ 0 ∧
      minP ≤ poolProfitPct (env.raydiumPrice.getD 0) (env.orcaPrice.getD 0) amt ∧
      opp.profit_pct = poolProfitPct (env.raydiumPrice.getD 0) (env.orcaPrice.getD 0) amt ∧
      (getJupiterQuote st0 now USDC_ADDRESS addr amt env.leg1).result = some opp.quote1 ∧
      (∃ t1, opp.quote1.outAmountInt = some t1 ∧
        (getJupiterQuote (getJupiterQuote st0 now USDC_ADDRESS addr amt env.leg1).st now addr
            USDC_ADDRESS t1 env.leg2).result = some opp.quote2 ∧
        ∃ jf, opp.quote2.outAmountInt = some jf ∧
          opp.jup_profit_pct = (((jf : ℚ) - (amt : ℚ)) / (amt : ℚ)) * 100) := by
  by_cases hray : pyTruthy env.raydiumPrice = true
  · by_cases horc : pyTruthy env.orcaPrice = true
    · simp only [detectArbRaw, hray, horc, Bool.not_true, Bool.false_or, Bool.or_self,
        Bool.false_eq_true, if_false] at h
      by_cases hamt : amt = 0
      · simp [hamt] at h
      · simp only [hamt, if_false] at h
        by_cases hth : minP ≤ poolProfitPct (env.raydiumPrice.getD 0) (env.orcaPrice.getD 0) amt
        · rw [if_pos hth] at h
          rcases hq1 : (getJupiterQuote st0 now USDC_ADDRESS addr amt env.leg1).result
            with _ | q1
          · rw [hq1] at h
            simp at h
          · rw [hq1] at h
            dsimp only at h
            rcases ht1 : q1.outAmountInt with _ | t1
            · rw [ht1] at h; simp at h
            · rw [ht1] at h
              dsimp only at h
              rcases hq2 : (getJupiterQuote
                  (getJupiterQuote st0 now USDC_ADDRESS addr amt env.leg1).st now addr
                  USDC_ADDRESS t1 env.leg2).result with _ | q2
              · rw [hq2] at h; simp at h
              · rw [hq2] at h
                dsimp only at h
                rcases ht2 : q2.outAmountInt with _ | jf
                · rw [ht2] at h; simp at h
                · rw [ht2] at h
                  dsimp only at h
                  injection h with h
                  injection h with h
                  subst h
                  exact ⟨hray, horc, hamt, hth, rfl, rfl, t1, ht1, hq2, jf, ht2, rfl⟩
        · rw [if_neg hth] at h
          simp at h
    · simp [detectArbRaw, horc] at h
  · simp [detectArbRaw, hray] at h

/-- Inversion for `detect_arb`: a returned opportunity means the USDC
self-check passed and the `try` body returned it (no exception was raised). -/
lemma detectArb_some_inv {env : ArbEnv} {st0 : InvalidMap} {now : Int}
    {sym addr : String} {amt : Int} {minP : ℚ} {opp : Opportunity}
    (h : (detectArb env st0 now sym addr amt minP).result = some opp) :
    addr ≠ USDC_ADDRESS ∧
      (detectArbRaw env st0 now sym addr amt minP).res = .ok (some opp) := by
  by_cases haddr : addr = USDC_ADDRESS
  · simp [detectArb, haddr] at h
  · refine ⟨haddr, ?_⟩
    simp only [detectArb, haddr, if_false] at h
    rcases hr : (detectArbRaw env st0 now sym addr amt minP).res with e | o
    · rw [hr] at h
      simp at h
    · rw [hr] at h
      dsimp only at h
      rw [h]

/-- C1: every accepted Opportunity carries the (non-null) quote of every leg:
an accepted result means the leg-1 fetch returned exactly the stored quote 1
and, from the resulting cache state, the leg-2 fetch returned exactly the
stored quote 2; conversely a failed leg-1 fetch forces a `None` evaluation,
and any exception raised inside the body is converted to `None` rather than
escaping to the scan scheduler. -/
theorem detect_arb_no_partial_opportunity (env : ArbEnv) (st0 : InvalidMap) (now : Int)
    (sym addr : String) (amt : Int) (minP : ℚ) :
    (∀ opp : Opportunity, (detectArb env st0 now sym addr amt minP).result = some opp →
      (getJupiterQuote st0 now USDC_ADDRESS addr amt env.leg1).result = some opp.quote1 ∧
        ∃ t1, opp.quote1.outAmountInt = some t1 ∧
          (getJupiterQuote (getJupiterQuote st0 now USDC_ADDRESS addr amt env.leg1).st now addr
              USDC_ADDRESS t1 env.leg2).result = some opp.quote2) ∧
      ((getJupiterQuote st0 now USDC_ADDRESS addr amt env.leg1).result = none →
        (detectArb env st0 now sym addr amt minP).result = none) ∧
      (∀ e : ArbErr, (detectArbRaw env st0 now sym addr amt minP).res = .error e →
        (detectArb env st0 now sym addr amt minP).result = none) := by
  refine ⟨?_, ?_, ?_⟩
  · intro opp h
    obtain ⟨-, hraw⟩ := detectArb_some_inv h
    obtain ⟨-, -, -, -, -, h6, t1, ht1, hq2, -⟩ := detectArbRaw_some_inv hraw
    exact ⟨h6, t1, ht1, hq2⟩
  · intro hn
    rcases hres : (detectArb env st0 now sym addr amt minP).result with _ | opp
    · rfl
    · obtain ⟨-, hraw⟩ := detectArb_some_inv hres
      obtain ⟨-, -, -, -, -, h6, -⟩ := detectArbRaw_some_inv hraw
      rw [hn] at h6
      simp at h6
  · intro e he
    by_cases haddr : addr = USDC_ADDRESS
    · simp [detectArb, haddr]
    · simp [detectArb, haddr, he]

theorem detect_arb_no_partial_opportunity_witness :
    (getJupiterQuote [] 0 USDC_ADDRESS "TOKADDR" 100 envOk.leg1).result = some oppOk.quote1 ∧
      ∃ t1, oppOk.quote1.outAmountInt = some t1 ∧
        (getJupiterQuote (getJupiterQuote [] 0 USDC_ADDRESS "TOKADDR" 100 envOk.leg1).st 0
            "TOKADDR" USDC_ADDRESS t1 envOk.leg2).result = some oppOk.quote2 :=
  (detect_arb_no_partial_opportunity envOk [] 0 "TOK" "TOKADDR" 100 6).1 oppOk (by
    simp +decide [detectArb, detectArbRaw, getJupiterQuote, jupLoop_ok, isSuppressed,
      lookupPair, pyTruthy, envOk, oppOk, JUP_RETRIES, USDC_ADDRESS, min_def, max_def]
    norm_num)

/-- Pool prices 1 and 28/25 (pool profit 12 %), Jupiter leg quotes 105 then
108 (Jupiter round-trip profit 8 %), no CoinGecko price. -/
def envC3 : ArbEnv :=
  ⟨some 1, some (28 / 25), fun _ => .ok ⟨some 105⟩, fun _ => .ok ⟨some 108⟩, none⟩

/-- The opportunity produced from `envC3` with notional 100, threshold 10. -/
def oppC3 : Opportunity :=
  ⟨"TOKEN", 12, "Raydium", "Orca", 1, 28 / 25, ⟨some 105⟩, ⟨some 108⟩, 8, 0, none⟩

/-- C3 counterexample: with notional 100 and leg quotes returning 105 then
108, the Jupiter round-trip profit is 8 %, yet at threshold 10 % the cycle is
NOT rejected: an Opportunity is produced, because acceptance is decided on
the pool-price profit (12 % here), not on the leg-quote profit. -/
theorem leg_quote_profit_does_not_decide_acceptance_counterexample :
    (detectArb envC3 [] 0 "TOKEN" "TOKADDR" 100 10).result = some oppC3 ∧
      oppC3.jup_profit_pct = 8 ∧ (8 : ℚ) < 10 := by
  refine ⟨?_, by norm_num [oppC3], by norm_num⟩
  simp +decide [detectArb, detectArbRaw, getJupiterQuote, jupLoop_ok, isSuppressed,
    lookupPair, pyTruthy, envC3, oppC3, JUP_RETRIES, USDC_ADDRESS, min_def, max_def]
  norm_num

/-- C3 (amended): for every cycle evaluated to completion (an Opportunity
produced), both stored profit percentages follow the formula
`(final − notional) / notional × 100` — `profit_pct` computed from the pool
prices, `jup_profit_pct` from the Jupiter leg quotes — and acceptance is
decided by the pool-price profit meeting the threshold, not by the leg-quote
profit (with notional 100 and leg quotes 105 then 108 the stored
`jup_profit_pct` is 8.0, but acceptance depends only on the pool profit). -/
theorem profit_formula_and_threshold (env : ArbEnv) (st0 : InvalidMap) (now : Int)
    (sym addr : String) (amt : Int) (minP : ℚ) (opp : Opportunity)
    (h : (detectArb env st0 now sym addr amt minP).result = some opp) :
    opp.profit_pct = poolProfitPct (env.raydiumPrice.getD 0) (env.orcaPrice.getD 0) amt ∧
      minP ≤ opp.profit_pct ∧
      ∃ jf, opp.quote2.outAmountInt = some jf ∧
        opp.jup_profit_pct = (((jf : ℚ) - (amt : ℚ)) / (amt : ℚ)) * 100 := by
  obtain ⟨-, hraw⟩ := detectArb_some_inv h
  obtain ⟨-, -, -, hth, hpp, -, t1, ht1, hq2, jf, ht2, hjp⟩ := detectArbRaw_some_inv hraw
  exact ⟨hpp, hpp ▸ hth, jf, ht2, hjp⟩

theorem profit_formula_and_threshold_witness :
    oppC3.profit_pct = poolProfitPct ((envC3.raydiumPrice).getD 0) ((envC3.orcaPrice).getD 0) 100 ∧
      (10 : ℚ) ≤ oppC3.profit_pct ∧
      ∃ jf, oppC3.quote2.outAmountInt = some jf ∧
        oppC3.jup_profit_pct = (((jf : ℚ) - (100 : ℚ)) / (100 : ℚ)) * 100 :=
  profit_formula_and_threshold envC3 [] 0 "TOKEN" "TOKADDR" 100 10 oppC3 (by
    simp +decide [detectArb, detectArbRaw, getJupiterQuote, jupLoop_ok, isSuppressed,
      lookupPair, pyTruthy, envC3, oppC3, JUP_RETRIES, USDC_ADDRESS, min_def, max_def]
    norm_num)

/-- Pool prices 1 and 6/5 (pool profit 20 %), Jupiter leg quotes 105 then 90
(Jupiter round-trip profit −10 %), no CoinGecko price. -/
def envC10 : ArbEnv :=
  ⟨some 1, some (6 / 5), fun _ => .ok ⟨some 105⟩, fun _ => .ok ⟨some 90⟩, none⟩

/-- The opportunity produced from `envC10` with notional 100, threshold 6. -/
def oppC10 : Opportunity :=
  ⟨"TOK", 20, "Raydium", "Orca", 1, 6 / 5, ⟨some 105⟩, ⟨some 90⟩, -10, 0, none⟩

/-- C10: acceptance is decided solely by the pool-price-derived profit
meeting the threshold, before any Jupiter quote is fetched: if the pool
profit is below the threshold the evaluation returns `None` with no Jupiter
request issued at all; every accepted opportunity has
`profit_pct = poolProfitPct ≥ threshold`; and an accepted (and notified)
opportunity may carry a Jupiter round-trip profit below the threshold and
even negative (−10 % in the concrete run). -/
theorem acceptance_by_pool_profit_only :
    (∀ (env : ArbEnv) (st0 : InvalidMap) (now : Int) (sym addr : String) (amt : Int)
        (minP : ℚ),
      poolProfitPct (env.raydiumPrice.getD 0) (env.orcaPrice.getD 0) amt < minP →
      detectArb env st0 now sym addr amt minP = ⟨none, st0, [], []⟩) ∧
      (∀ (env : ArbEnv) (st0 : InvalidMap) (now : Int) (sym addr : String) (amt : Int)
          (minP : ℚ) (opp : Opportunity),
        (detectArb env st0 now sym addr amt minP).result = some opp →
        opp.profit_pct = poolProfitPct (env.raydiumPrice.getD 0) (env.orcaPrice.getD 0) amt ∧
          minP ≤ opp.profit_pct) ∧
      ((detectArb envC10 [] 0 "TOK" "TOKADDR" 100 6).result = some oppC10 ∧
        oppC10.jup_profit_pct < 0 ∧ oppC10.jup_profit_pct < 6) := by
  refine ⟨?_, ?_, ?_, by norm_num [oppC10], by norm_num [oppC10]⟩
  · intro env st0 now sym addr amt minP hlt
    by_cases haddr : addr = USDC_ADDRESS
    · simp [detectArb, haddr]
    · by_cases hray : pyTruthy env.raydiumPrice = true
      · by_cases horc : pyTruthy env.orcaPrice = true
        · by_cases hamt : amt = 0
          · simp [detectArb, detectArbRaw, haddr, hray, horc, hamt]
          · have hth : ¬minP ≤ poolProfitPct (env.raydiumPrice.getD 0) (env.orcaPrice.getD 0)
                amt := not_le.mpr hlt
            simp only [detectArb, detectArbRaw, haddr, hray, horc, hamt, Bool.not_true,
              Bool.false_or, Bool.or_self, Bool.false_eq_true, if_false]
            rw [if_neg hth]
        · simp [detectArb, detectArbRaw, haddr, horc]
      · simp [detectArb, detectArbRaw, haddr, hray]
  · intro env st0 now sym addr amt minP opp h
    obtain ⟨-, hraw⟩ := detectArb_some_inv h
    obtain ⟨-, -, -, hth, hpp, -⟩ := detectArbRaw_some_inv hraw
    exact ⟨hpp, hpp ▸ hth⟩
  · simp +decide [detectArb, detectArbRaw, getJupiterQuote, jupLoop_ok, isSuppressed,
      lookupPair, pyTruthy, envC10, oppC10, JUP_RETRIES, USDC_ADDRESS, min_def, max_def]
    norm_num

theorem acceptance_by_pool_profit_only_witness :
    poolProfitPct ((envOk.raydiumPrice).getD 0) ((envOk.orcaPrice).getD 0) 100 < 21 ∧
      detectArb envOk [] 7 "TOK" "TOKADDR" 100 21 = ⟨none, [], [], []⟩ :=
  ⟨by norm_num [envOk, poolProfitPct, min_def, max_def],
    acceptance_by_pool_profit_only.1 envOk [] 7 "TOK" "TOKADDR" 100 21
      (by norm_num [envOk, poolProfitPct, min_def, max_def])⟩

/-- Pool prices 1 and 2 (pool profit 100 %), both Jupiter leg quotes with
output amount 0, no CoinGecko price. -/
def envC8 : ArbEnv :=
  ⟨some 1, some 2, fun _ => .ok ⟨some 0⟩, fun _ => .ok ⟨some 0⟩, none⟩

/-- The opportunity produced from `envC8` with notional 100, threshold 6. -/
def oppC8 : Opportunity :=
  ⟨"TOK", 100, "Raydium", "Orca", 1, 2, ⟨some 0⟩, ⟨some 0⟩, -100, 0, none⟩

/-- C8 counterexample: a leg quote whose output amount is 0 is NOT treated as
a failure: the zero is forwarded as the input amount of the leg-2 request
(the request ⟨TOKADDR, USDC, 0⟩ is issued), and the evaluation still returns
an Opportunity (with `jup_profit_pct = −100`) instead of `None`. -/
theorem zero_leg_output_counterexample :
    detectArb envC8 [] 0 "TOK" "TOKADDR" 100 6 =
        ⟨some oppC8, [], [⟨USDC_ADDRESS, "TOKADDR", 100⟩, ⟨"TOKADDR", USDC_ADDRESS, 0⟩], []⟩ ∧
      oppC8.quote1.outAmountInt = some 0 ∧
      (⟨"TOKADDR", USDC_ADDRESS, 0⟩ : JupRequest) ∈
        (detectArb envC8 [] 0 "TOK" "TOKADDR" 100 6).requests := by
  have hE : detectArb envC8 [] 0 "TOK" "TOKADDR" 100 6 =
      ⟨some oppC8, [], [⟨USDC_ADDRESS, "TOKADDR", 100⟩, ⟨"TOKADDR", USDC_ADDRESS, 0⟩], []⟩ := by
    simp +decide [detectArb, detectArbRaw, getJupiterQuote, jupLoop_ok, isSuppressed,
      lookupPair, pyTruthy, envC8, oppC8, JUP_RETRIES, USDC_ADDRESS, min_def, max_def]
    norm_num
  refine ⟨hE, by decide, ?_⟩
  rw [hE]
  decide

/-- C8 (amended): a zero input notional makes the evaluation return `None`
(the division by zero raises and is caught), but a leg quote with output
amount 0 is not treated as a failure: when the leg-1 quote succeeds with
output amount 0, the zero IS forwarded as the input amount of the leg-2
request. -/
theorem zero_amount_behavior :
    (∀ (env : ArbEnv) (st0 : InvalidMap) (now : Int) (sym addr : String) (minP : ℚ),
      (detectArb env st0 now sym addr 0 minP).result = none) ∧
      (∀ (env : ArbEnv) (st0 : InvalidMap) (now : Int) (sym addr : String) (amt : Int)
          (minP : ℚ) (q1 : JupData),
        addr ≠ USDC_ADDRESS →
        pyTruthy env.raydiumPrice = true → pyTruthy env.orcaPrice = true →
        amt ≠ 0 →
        minP ≤ poolProfitPct (env.raydiumPrice.getD 0) (env.orcaPrice.getD 0) amt →
        (getJupiterQuote st0 now USDC_ADDRESS addr amt env.leg1).result = some q1 →
        q1.outAmountInt = some 0 →
        (detectArb env st0 now sym addr amt minP).requests =
          (getJupiterQuote st0 now USDC_ADDRESS addr amt env.leg1).requests ++
            (getJupiterQuote (getJupiterQuote st0 now USDC_ADDRESS addr amt env.leg1).st now
                addr USDC_ADDRESS 0 env.leg2).requests) := by
  constructor
  · intro env st0 now sym addr minP
    by_cases haddr : addr = USDC_ADDRESS
    · simp [detectArb, haddr]
    · by_cases hray : pyTruthy env.raydiumPrice = true
      · by_cases horc : pyTruthy env.orcaPrice = true
        · simp [detectArb, detectArbRaw, haddr, hray, horc]
        · simp [detectArb, detectArbRaw, haddr, horc]
      · simp [detectArb, detectArbRaw, haddr, hray]
  · intro env st0 now sym addr amt minP q1 haddr hray horc hamt hth hq1 hz
    simp only [detectArb, haddr, if_false]
    simp only [detectArbRaw, hray, horc, Bool.not_true, Bool.false_or, Bool.or_self,
      Bool.false_eq_true, if_false, hamt]
    rw [if_pos hth, hq1]
    try dsimp only
    rw [hz]
    try dsimp only
    cases hq2 : (getJupiterQuote (getJupiterQuote st0 now USDC_ADDRESS addr amt env.leg1).st
        now addr USDC_ADDRESS 0 env.leg2).result with
    | none => rfl
    | some q2 =>
      rcases q2 with ⟨o⟩
      cases o <;> rfl

theorem zero_amount_behavior_witness :
    (detectArb envC8 [] 0 "TOK" "TOKADDR" 0 6).result = none ∧
      (detectArb envC8 [] 0 "TOK" "TOKADDR" 100 6).requests =
        (getJupiterQuote [] 0 USDC_ADDRESS "TOKADDR" 100 envC8.leg1).requests ++
          (getJupiterQuote (getJupiterQuote [] 0 USDC_ADDRESS "TOKADDR" 100 envC8.leg1).st 0
              "TOKADDR" USDC_ADDRESS 0 envC8.leg2).requests :=
  ⟨zero_amount_behavior.1 envC8 [] 0 "TOK" "TOKADDR" 6,
    zero_amount_behavior.2 envC8 [] 0 "TOK" "TOKADDR" 100 6 ⟨some 0⟩ (by decide)
      (by norm_num [pyTruthy, envC8]) (by norm_num [pyTruthy, envC8]) (by norm_num)
      (by norm_num [poolProfitPct, envC8, min_def, max_def]) (by decide) (by decide)⟩

/-- State of one cycle evaluation (task) inside the currently running batch:
whether it is awaiting an upstream HTTP response right now, and how many
requests it still has to issue. Every upstream call inside `detect_arb` is
`await`ed before the next one starts (bot.py lines 273, 274, 293, 298, 305),
so one task has at most one request in flight at any instant — captured by
the single `inFlight` flag. -/
structure TaskState where
  inFlight : Bool
  remaining : Nat
  deriving DecidableEq

/-- A fresh task for an evaluation that will issue the given request list
(e.g. the `requests` trace of a `detectArb` run). -/
def initTask (reqs : List JupRequest) : TaskState :=
  ⟨false, reqs.length⟩

/-- The initial interleaving state of one batch of evaluations. -/
def initBatch (batch : List (List JupRequest)) : List TaskState :=
  batch.map initTask

/-- The number of simultaneously in-flight upstream HTTP requests. -/
def inFlightCount (ts : List TaskState) : Nat :=
  (ts.filter (fun t => t.inFlight)).length

/-- One step of the cooperative (asyncio) interleaving of a batch: a task
starts its next upstream request, or an in-flight request completes. -/
inductive BatchStep : List TaskState → List TaskState → Prop where
  | start (ts : List TaskState) (i : Nat) (t : TaskState) (h : ts.get? i = some t)
      (hf : t.inFlight = false) (hr : t.remaining ≠ 0) :
      BatchStep ts (ts.set i ⟨true, t.remaining⟩)
  | finish (ts : List TaskState) (i : Nat) (t : TaskState) (h : ts.get? i = some t)
      (hf : t.inFlight = true) :
      BatchStep ts (ts.set i ⟨false, t.remaining - 1⟩)

/-- Reachability under batch interleaving steps. -/
inductive BatchReach : List TaskState → List TaskState → Prop where
  | refl (s : List TaskState) : BatchReach s s
  | tail {a b c : List TaskState} : BatchReach a b → BatchStep b c → BatchReach a c

/-- The chunking of `scan` (bot.py lines 337-338,
`tasks[i : i + MAX_CONCURRENT_REQUESTS]`), building chunks of size `m + 1`:
`k` is the remaining capacity of the current chunk `acc` (kept reversed). -/
def chunkAux {α : Type _} (m : Nat) : List α → Nat → List α → List (List α)
  | [], _, acc => if acc.isEmpty then [] else [acc.reverse]
  | x :: xs, Nat.succ k, acc => chunkAux m xs k (x :: acc)
  | x :: xs, 0, acc => acc.reverse :: chunkAux m xs m [x]

/-- The batches of one scan pass over the enumerated evaluations: consecutive
chunks of `MAX_CONCURRENT_REQUESTS` evaluations, each batch `await`ed to
completion (`asyncio.gather`, bot.py line 340) before the next one starts,
with an inter-batch pacing delay (line 350). -/
def scanChunks (tasks : List (List JupRequest)) : List (List (List JupRequest)) :=
  chunkAux (MAX_CONCURRENT_REQUESTS - 1) tasks MAX_CONCURRENT_REQUESTS []

example : scanChunks [[⟨"a", "b", 1⟩], [⟨"b", "c", 2⟩], [⟨"c", "d", 3⟩]] =
    [[[⟨"a", "b", 1⟩]], [[⟨"b", "c", 2⟩]], [[⟨"c", "d", 3⟩]]] := by decide

/-- Every chunk produced by `chunkAux m` has at most `m + 1` elements, given
that the accumulator still fits. -/
lemma chunkAux_length_le {α : Type _} (m : Nat) :
    ∀ (l : List α) (k : Nat) (acc : List α), acc.length + k ≤ m + 1 →
      ∀ c ∈ chunkAux m l k acc, c.length ≤ m + 1
  | [], k, acc, hinv, c, hc => by
    by_cases he : acc.isEmpty
    · simp [chunkAux, he] at hc
    · simp only [chunkAux, he, Bool.false_eq_true, if_false, List.mem_singleton] at hc
      subst hc
      simp only [List.length_reverse]
      omega
  | x :: xs, Nat.succ k, acc, hinv, c, hc => by
    refine chunkAux_length_le m xs k (x :: acc) ?_ c ?_
    · simp only [List.length_cons]
      omega
    · simpa [chunkAux] using hc
  | x :: xs, 0, acc, hinv, c, hc => by
    simp only [chunkAux, List.mem_cons] at hc
    rcases hc with hc | hc
    · subst hc
      simp only [List.length_reverse]
      omega
    · refine chunkAux_length_le m xs m [x] ?_ c hc
      simp only [List.length_singleton]
      omega

/-- Interleaving steps preserve the number of tasks in the batch. -/
lemma batchStep_length {a b : List TaskState} (h : BatchStep a b) : b.length = a.length := by
  cases h <;> simp

/-- Reachable states have as many tasks as the initial state. -/
lemma batchReach_length {a b : List TaskState} (h : BatchReach a b) : b.length = a.length := by
  induction h with
  | refl => rfl
  | tail _ hs ih => rw [batchStep_length hs, ih]

/-- C9: during a scan pass, for any number of enumerated cycle evaluations,
the number of simultaneously in-flight upstream HTTP requests never exceeds
MAX_CONCURRENT_REQUESTS: batches are chunks of at most
MAX_CONCURRENT_REQUESTS evaluations awaited one batch at a time, each
evaluation holds at most one request in flight (all its upstream calls are
awaited sequentially), so every reachable interleaving state of every batch
has an in-flight count within the limit. -/
theorem scan_inflight_bounded (tasks : List (List JupRequest))
    (batch : List (List JupRequest)) (s : List TaskState)
    (hb : batch ∈ scanChunks tasks) (hr : BatchReach (initBatch batch) s) :
    inFlightCount s ≤ MAX_CONCURRENT_REQUESTS := by
  have h1 : inFlightCount s ≤ s.length := List.length_filter_le _ _
  have h2 : s.length = (initBatch batch).length := batchReach_length hr
  have h3 : (initBatch batch).length = batch.length := List.length_map _ _
  have h4 : batch.length ≤ (MAX_CONCURRENT_REQUESTS - 1) + 1 :=
    chunkAux_length_le (MAX_CONCURRENT_REQUESTS - 1) tasks MAX_CONCURRENT_REQUESTS []
      (by decide) batch hb
  have h5 : (MAX_CONCURRENT_REQUESTS - 1) + 1 = MAX_CONCURRENT_REQUESTS := by decide
  omega

theorem scan_inflight_bounded_witness :
    [[(⟨"a", "b", 1⟩ : JupRequest)]] ∈ scanChunks [[⟨"a", "b", 1⟩], [⟨"b", "c", 2⟩]] ∧
      inFlightCount [⟨true, 1⟩] ≤ MAX_CONCURRENT_REQUESTS :=
  ⟨by decide,
    scan_inflight_bounded [[⟨"a", "b", 1⟩], [⟨"b", "c", 2⟩]] [[⟨"a", "b", 1⟩]] [⟨true, 1⟩]
      (by decide)
      (BatchReach.tail (BatchReach.refl _)
        (BatchStep.start (initBatch [[⟨"a", "b", 1⟩]]) 0 ⟨false, 1⟩ rfl rfl (by decide)))⟩
